import Mathlib

/-!
Verification of the Sunexposure vitamin-D calculator (src/sunexposure.py).

The script is a single pure numeric pipeline.  Python floats are embedded as
rationals (`ℚ`): the spec's contract is bit-for-bit *behavioural*, not
bit-for-bit floating point, and every constant in the source is an exact
decimal.  Python's `float('inf')` sentinel (used for the time-to-target and
burn-time outputs at zero rate / zero UV) is embedded as `Option ℚ`, with
`none` standing for positive infinity.
-/

namespace Sunexposure

/-- `base_rate = 21000` (src line 26). -/
def base_rate : ℚ := 21000

/-- `skin_type_factor = 1.0` — light skin, Type III (src line 27). -/
def skin_type_factor : ℚ := 1

/-- `age_factor = 0.95` — for age 25 (src line 28). -/
def age_factor : ℚ := 95/100

/-- `height_inches = 74` (src line 29). -/
def height_inches : ℚ := 74

/-- `weight_lbs = 180` (src line 30). -/
def weight_lbs : ℚ := 180

/-- `height_m = height_inches * 0.0254` (src line 31). -/
def height_m : ℚ := height_inches * (254/10000)

/-- `weight_kg = weight_lbs * 0.453592` (src line 32). -/
def weight_kg : ℚ := weight_lbs * (453592/1000000)

/-- `bmi = weight_kg / (height_m ** 2) if height_m > 0 else 0` (src line 33). -/
def bmi : ℚ := if 0 < height_m then weight_kg / height_m ^ 2 else 0

/-- `med_uv1 = 425` — MED at UV 1 for Skin Type III, minutes (src line 34). -/
def med_uv1 : ℚ := 425

/-- The `clothing_options` dict (src lines 15–21): label ↦ factor. -/
def clothing_options : List (String × ℚ) :=
  [("Nude (100%)", 1),
   ("Minimal/Swimwear (80%)", 8/10),
   ("Light/Shorts & T-shirt (40%)", 4/10),
   ("Moderate/Long sleeves (15%)", 15/100),
   ("Heavy/Fully covered (5%)", 5/100)]

/-- The enumerated clothing factors (the values of `clothing_options`). -/
def clothing_factors : List ℚ := clothing_options.map Prod.snd

/-- Quality factor (src lines 43–48): `1.0` if `10 <= current_hour < 15`,
else `0.5`. -/
def quality_factor (current_hour : ℕ) : ℚ :=
  if 10 ≤ current_hour ∧ current_hour < 15 then 1 else 5/10

/-- `uv_factor = (uv_index * 3.0) / (4.0 + uv_index)` (src line 51). -/
def uv_factor (uv_index : ℚ) : ℚ := (uv_index * 3) / (4 + uv_index)

/-- `vitamin_d_rate = base_rate * uv_factor * clothing_factor *
skin_type_factor * age_factor * quality_factor * adaptation_factor`
(src line 54), as a function of the four non-constant factors. -/
def vitamin_d_rate (uvf cf qf af : ℚ) : ℚ :=
  base_rate * uvf * cf * skin_type_factor * age_factor * qf * af

/-- Time to get 15,000 IU (src lines 57–61): minutes if the rate is
positive, else `float('inf')` (here `none`). -/
def time_to_15000_minutes (rate : ℚ) : Option ℚ :=
  if 0 < rate then some ((15000 / rate) * 60) else none

/-- Burn-time (src lines 64–69): `med_uv1 / uv_index` minutes if
`uv_index > 0`, else `float('inf')` (here `none`). -/
def burn_time_minutes (uv_index : ℚ) : Option ℚ :=
  if 0 < uv_index then some (med_uv1 / uv_index) else none

/-- Safety warning threshold (src lines 64–69): `burn_time_minutes * 0.8`
in the positive branch, else `float('inf')` (here `none`). -/
def safety_warning_minutes (uv_index : ℚ) : Option ℚ :=
  if 0 < uv_index then some ((med_uv1 / uv_index) * (8/10)) else none

/-- The winter months list `[11, 12, 1, 2]` (src line 85). -/
def winter_months : List ℕ := [11, 12, 1, 2]

/-- The BMI-tiered dose (src lines 86–90): base `2000`, overridden to
`4000` when `bmi >= 30`, to `3000` when `bmi >= 25`. -/
def supplement_rec (b : ℚ) : ℕ :=
  if 30 ≤ b then 4000 else if 25 ≤ b then 3000 else 2000

/-- The seasonal output: either the winter warning carrying a numeric dose
(`st.warning`, src lines 92–98) or the informational note (`st.info`,
src line 100). -/
inductive SeasonNotice where
  | warning (dose : ℕ)
  | info
deriving DecidableEq

/-- The month branch (src lines 85–100): winter months yield the warning
with the tiered dose, any other month yields the informational note. -/
def season_notice (current_month : ℕ) (b : ℚ) : SeasonNotice :=
  if current_month ∈ winter_months then .warning (supplement_rec b) else .info

/-- Round-half-even of a rational to an integer, the rounding used by
Python's fixed-point formatting. -/
def roundHalfEven (x : ℚ) : ℤ :=
  let f := ⌊x⌋
  let r := x - f
  if r < 1/2 then f
  else if 1/2 < r then f + 1
  else if f % 2 = 0 then f else f + 1

/-- One-decimal fixed-point formatting of a nonnegative rational, as
Python's `f"{x:.1f}"` produces for a nonnegative value. -/
def format1f (q : ℚ) : String :=
  let n := (roundHalfEven (q * 10)).toNat
  toString (n / 10) ++ "." ++ toString (n % 10)

/-- Python's `f"{x:.1f}"` on the time value: `float('inf')` formats as the
bare string `"inf"`; a finite value as its one-decimal rendering. -/
def pyFormat1 : Option ℚ → String
  | none => "inf"
  | some q => format1f q

/-- The rendered line `f"Approximately {time_to_15000_minutes:.1f} minutes
of exposure."` (src line 79). -/
def display_time_line (t : Option ℚ) : String :=
  "Approximately " ++ pyFormat1 t ++ " minutes of exposure."

/-- C1: for every uv_factor, clothing_factor, quality_factor and
adaptation_factor, the synthesis rate is the six-way product
`21000 × uv_factor × clothing_factor × 1.0 × 0.95 × quality_factor ×
adaptation_factor`. -/
theorem C1_vitamin_d_rate_product (uvf cf qf af : ℚ) :
    vitamin_d_rate uvf cf qf af = 21000 * uvf * cf * 1 * (95/100) * qf * af := by
  unfold vitamin_d_rate base_rate skin_type_factor age_factor
  ring

/-- C2: `uv_factor uv_index = (uv_index × 3) / (4 + uv_index)`; on [0, 20]
it lies in [0, 3), is strictly increasing, and `uv_factor 0 = 0` exactly. -/
theorem C2_uv_factor_spec :
    (∀ u : ℚ, uv_factor u = (u * 3) / (4 + u)) ∧
    (∀ u : ℚ, 0 ≤ u → u ≤ 20 → 0 ≤ uv_factor u ∧ uv_factor u < 3) ∧
    (∀ a b : ℚ, 0 ≤ a → a < b → b ≤ 20 → uv_factor a < uv_factor b) ∧
    uv_factor 0 = 0 := by
  refine ⟨fun u => rfl, fun u hu _ => ⟨?_, ?_⟩, fun a b ha hab _ => ?_, ?_⟩
  · exact div_nonneg (by linarith) (by linarith)
  · rw [uv_factor, div_lt_iff₀ (by linarith)]
    linarith
  · rw [uv_factor, uv_factor, div_lt_div_iff₀ (by linarith) (by linarith)]
    nlinarith
  · norm_num [uv_factor]

/-- Witness for C2 at concrete inputs 9 and 2 < 9. -/
theorem C2_uv_factor_spec_witness :
    (0 ≤ uv_factor 9 ∧ uv_factor 9 < 3) ∧ uv_factor 2 < uv_factor 9 :=
  ⟨C2_uv_factor_spec.2.1 9 (by norm_num) (by norm_num),
   C2_uv_factor_spec.2.2.1 2 9 (by norm_num) (by norm_num) (by norm_num)⟩

/-- C3: a positive rate yields `(15000 / rate) × 60` minutes; a zero rate
yields the positive-infinity sentinel (`none`), not an error. -/
theorem C3_time_to_target (rate : ℚ) :
    (0 < rate → time_to_15000_minutes rate = some ((15000 / rate) * 60)) ∧
    (rate = 0 → time_to_15000_minutes rate = none) := by
  constructor
  · intro h
    rw [time_to_15000_minutes, if_pos h]
  · intro h
    subst h
    rw [time_to_15000_minutes, if_neg (lt_irrefl 0)]

/-- Witness for C3 at rates 100 and 0. -/
theorem C3_time_to_target_witness :
    time_to_15000_minutes 100 = some ((15000 / 100) * 60) ∧
    time_to_15000_minutes 0 = none :=
  ⟨(C3_time_to_target 100).1 (by norm_num), (C3_time_to_target 0).2 rfl⟩

/-- C4: positive UV yields burn time `425 / uv_index` and safety warning
`burn_time × 0.8`; zero UV yields the positive-infinity sentinel for both. -/
theorem C4_burn_time (u : ℚ) :
    (0 < u → burn_time_minutes u = some (425 / u) ∧
      safety_warning_minutes u = some ((425 / u) * (8/10))) ∧
    (u = 0 → burn_time_minutes u = none ∧ safety_warning_minutes u = none) := by
  constructor
  · intro h
    rw [burn_time_minutes, safety_warning_minutes, med_uv1, if_pos h, if_pos h]
    exact ⟨rfl, rfl⟩
  · intro h
    subst h
    rw [burn_time_minutes, safety_warning_minutes, if_neg (lt_irrefl 0),
      if_neg (lt_irrefl 0)]
    exact ⟨rfl, rfl⟩

/-- Witness for C4 at UV 5 and UV 0. -/
theorem C4_burn_time_witness :
    (burn_time_minutes 5 = some (425 / 5) ∧
      safety_warning_minutes 5 = some ((425 / 5) * (8/10))) ∧
    (burn_time_minutes 0 = none ∧ safety_warning_minutes 0 = none) :=
  ⟨(C4_burn_time 5).1 (by norm_num), (C4_burn_time 0).2 rfl⟩

/-- C8: for every hour in [0, 23], the quality factor is `1` exactly when
`10 ≤ hour < 15` and `1/2` otherwise, and no other value occurs. -/
theorem C8_quality_factor_step : ∀ h : Fin 24,
    (quality_factor h.val = if 10 ≤ h.val ∧ h.val < 15 then 1 else 1/2) ∧
    (quality_factor h.val = 1 ∨ quality_factor h.val = 1/2) := by
  intro h
  refine ⟨?_, ?_⟩ <;> unfold quality_factor <;> split <;> norm_num

/-- C5: a numeric dose is produced exactly in months 11, 12, 1, 2; there it
is 4000 for BMI ≥ 30, 3000 for 25 ≤ BMI < 30, 2000 for BMI < 25 (boundaries
25 and 30 falling in the higher tier); any other month yields only the
informational note. -/
theorem C5_supplement (m : ℕ) (b : ℚ) :
    ((∃ d, season_notice m b = .warning d) ↔ m ∈ winter_months) ∧
    (m ∈ winter_months → season_notice m b = .warning (supplement_rec b)) ∧
    (m ∉ winter_months → season_notice m b = .info) ∧
    (30 ≤ b → supplement_rec b = 4000) ∧
    (25 ≤ b → b < 30 → supplement_rec b = 3000) ∧
    (b < 25 → supplement_rec b = 2000) := by
  refine ⟨?_, ?_, ?_, ?_, ?_, ?_⟩
  · unfold season_notice
    split
    next hm => exact iff_of_true ⟨supplement_rec b, rfl⟩ hm
    next hm =>
      exact iff_of_false (fun hd => hd.elim fun d hd => SeasonNotice.noConfusion hd) hm
  · intro hm
    unfold season_notice
    rw [if_pos hm]
  · intro hm
    unfold season_notice
    rw [if_neg hm]
  · intro h30
    unfold supplement_rec
    rw [if_pos h30]
  · intro h25 h30
    unfold supplement_rec
    rw [if_neg (not_le.mpr h30), if_pos h25]
  · intro h25
    unfold supplement_rec
    rw [if_neg (not_le.mpr (by linarith)), if_neg (not_le.mpr h25)]

/-- Witness for C5: December at the boundaries 30, 25, below 25, and July. -/
theorem C5_supplement_witness :
    season_notice 12 30 = .warning (supplement_rec 30) ∧
    supplement_rec 30 = 4000 ∧
    supplement_rec 25 = 3000 ∧
    supplement_rec (249/10) = 2000 ∧
    season_notice 7 30 = .info :=
  ⟨(C5_supplement 12 30).2.1 (by norm_num [winter_months]),
   (C5_supplement 12 30).2.2.2.1 (by norm_num),
   (C5_supplement 12 25).2.2.2.2.1 (by norm_num) (by norm_num),
   (C5_supplement 12 (249/10)).2.2.2.2.2 (by norm_num),
   (C5_supplement 7 30).2.2.1 (by norm_num [winter_months])⟩

/-- C6 counterexample: at uv_index 9, clothing 1, quality 1, adaptation 0.8
the exact rate is 430920/13 ≈ 33147.69, which is more than 0.05 away from
the claimed 33149.2; the exact time is 32500/1197 ≈ 27.151, which is more
than 0.05 away from the claimed 27.1. -/
theorem C6_scenario_counterexample :
    vitamin_d_rate (uv_factor 9) 1 1 (8/10) = 430920/13 ∧
    1/20 < |vitamin_d_rate (uv_factor 9) 1 1 (8/10) - 331492/10| ∧
    time_to_15000_minutes (vitamin_d_rate (uv_factor 9) 1 1 (8/10)) =
      some (32500/1197) ∧
    1/20 < |(32500/1197 : ℚ) - 271/10| := by
  have h : vitamin_d_rate (uv_factor 9) 1 1 (8/10) = 430920/13 := by
    norm_num [vitamin_d_rate, uv_factor, base_rate, skin_type_factor, age_factor]
  refine ⟨h, ?_, ?_, ?_⟩
  · rw [h, abs_of_nonpos (by norm_num)]
    norm_num
  · rw [h, time_to_15000_minutes, if_pos (by norm_num : (0:ℚ) < 430920/13)]
    norm_num
  · rw [abs_of_nonneg (by norm_num)]
    norm_num

/-- C6 amended: for uv_index 9, clothing 1, quality 1, adaptation 0.8 the
pipeline yields uv_factor = 27/13 ≈ 2.0769, vitamin_d_rate = 430920/13 ≈
33147.7 IU/hour, time to target = 32500/1197 ≈ 27.2 minutes, burn time =
425/9 ≈ 47.2 minutes and safety warning = 340/9 ≈ 37.8 minutes. -/
theorem C6_scenario_amended :
    uv_factor 9 = 27/13 ∧
    vitamin_d_rate (uv_factor 9) 1 1 (8/10) = 430920/13 ∧
    |vitamin_d_rate (uv_factor 9) 1 1 (8/10) - 331477/10| ≤ 1/20 ∧
    time_to_15000_minutes (vitamin_d_rate (uv_factor 9) 1 1 (8/10)) =
      some (32500/1197) ∧
    |(32500/1197 : ℚ) - 272/10| ≤ 1/20 ∧
    burn_time_minutes 9 = some (425/9) ∧
    safety_warning_minutes 9 = some (340/9) ∧
    |(425/9 : ℚ) - 472/10| ≤ 1/20 ∧
    |(340/9 : ℚ) - 378/10| ≤ 1/20 := by
  have h : vitamin_d_rate (uv_factor 9) 1 1 (8/10) = 430920/13 := by
    norm_num [vitamin_d_rate, uv_factor, base_rate, skin_type_factor, age_factor]
  refine ⟨by norm_num [uv_factor], h, ?_, ?_, ?_, ?_, ?_, ?_, ?_⟩
  · rw [h, abs_of_nonpos (by norm_num)]
    norm_num
  · rw [h, time_to_15000_minutes, if_pos (by norm_num : (0:ℚ) < 430920/13)]
    norm_num
  · rw [abs_of_nonpos (by norm_num)]
    norm_num
  · rw [burn_time_minutes, if_pos (by norm_num : (0:ℚ) < 9)]
    norm_num [med_uv1]
  · rw [safety_warning_minutes, if_pos (by norm_num : (0:ℚ) < 9)]
    norm_num [med_uv1]
  · rw [abs_of_nonneg (by norm_num)]
    norm_num
  · rw [abs_of_nonpos (by norm_num)]
    norm_num

/-- C7: at uv_index 0 (rate 0, time = infinity) the rendered line embeds the
bare numeric string "inf" — Python's `:.1f` formatting of `float('inf')` —
with no "not achievable" sentinel, contradicting the spec's rendering
contract. -/
theorem C7_inf_rendered_bare :
    display_time_line
      (time_to_15000_minutes (vitamin_d_rate (uv_factor 0) 1 (quality_factor 12) (8/10)))
      = "Approximately inf minutes of exposure." := by
  have h0 : vitamin_d_rate (uv_factor 0) 1 (quality_factor 12) (8/10) = 0 := by
    norm_num [vitamin_d_rate, uv_factor, base_rate, skin_type_factor, age_factor,
      quality_factor]
  rw [h0, time_to_15000_minutes, if_neg (lt_irrefl 0)]
  rfl

/-- C9: with clothing from the enumerated set and adaptation in [0.8, 1.2],
a positive uv_index forces a strictly positive rate — so the infinity branch
of time-to-target is unreachable and the time is finite — and the rate is
zero exactly when uv_index is zero. -/
theorem C9_rate_positive (u c a : ℚ) (h : ℕ)
    (hu : 0 ≤ u) (hc : c ∈ clothing_factors) (ha1 : 4/5 ≤ a) (ha2 : a ≤ 6/5) :
    (0 < u → 0 < vitamin_d_rate (uv_factor u) c (quality_factor h) a ∧
      time_to_15000_minutes (vitamin_d_rate (uv_factor u) c (quality_factor h) a) ≠ none) ∧
    (vitamin_d_rate (uv_factor u) c (quality_factor h) a = 0 ↔ u = 0) := by
  have hc0 : 0 < c := by
    fin_cases hc <;> norm_num
  have ha0 : 0 < a := by linarith
  have hq : 0 < quality_factor h := by
    unfold quality_factor
    split <;> norm_num
  have hd : (0:ℚ) < 4 + u := by linarith
  have key : 0 < u → 0 < vitamin_d_rate (uv_factor u) c (quality_factor h) a := by
    intro hupos
    have huv : 0 < uv_factor u := div_pos (by linarith) hd
    unfold vitamin_d_rate base_rate skin_type_factor age_factor
    exact mul_pos (mul_pos (mul_pos (mul_pos (mul_pos (mul_pos
      (by norm_num) huv) hc0) (by norm_num)) (by norm_num)) hq) ha0
  constructor
  · intro hupos
    refine ⟨key hupos, ?_⟩
    rw [time_to_15000_minutes, if_pos (key hupos)]
    exact Option.some_ne_none _
  · constructor
    · intro h0
      by_contra hne
      exact ne_of_gt (key (lt_of_le_of_ne hu (Ne.symm hne))) h0
    · intro h0
      subst h0
      unfold vitamin_d_rate uv_factor
      norm_num

/-- Witness for C9 at uv_index 9 and 0, clothing 1, hour 12, adaptation 0.8. -/
theorem C9_rate_positive_witness :
    (0 < vitamin_d_rate (uv_factor 9) 1 (quality_factor 12) (8/10) ∧
      time_to_15000_minutes (vitamin_d_rate (uv_factor 9) 1 (quality_factor 12) (8/10)) ≠ none) ∧
    vitamin_d_rate (uv_factor 0) 1 (quality_factor 12) (8/10) = 0 :=
  ⟨(C9_rate_positive 9 1 (8/10) 12 (by norm_num)
      (by norm_num [clothing_factors, clothing_options]) (by norm_num) (by norm_num)).1
      (by norm_num),
   ((C9_rate_positive 0 1 (8/10) 12 le_rfl
      (by norm_num [clothing_factors, clothing_options]) (by norm_num) (by norm_num)).2).mpr
      rfl⟩

/-- C10: the hardcoded profile gives BMI = 510291000/22080601 ≈ 23.1 < 25,
so every winter month produces the 2000 IU/day dose and the 3000/4000 tiers
are unreachable. -/
theorem C10_bmi_winter_dose :
    bmi < 25 ∧ |bmi - 231/10| ≤ 1/20 ∧
    (∀ m : ℕ, m ∈ winter_months → season_notice m bmi = .warning 2000) := by
  have hb : bmi = 510291000/22080601 := by
    rw [bmi, if_pos (by norm_num [height_m, height_inches] : (0:ℚ) < height_m)]
    norm_num [weight_kg, height_m, weight_lbs, height_inches]
  refine ⟨?_, ?_, ?_⟩
  · rw [hb]
    norm_num
  · rw [hb, abs_of_nonneg (by norm_num)]
    norm_num
  · intro m hm
    unfold season_notice supplement_rec
    rw [if_pos hm, hb, if_neg (by norm_num), if_neg (by norm_num)]

/-- Witness for C10 at month 11. -/
theorem C10_bmi_winter_dose_witness :
    season_notice 11 bmi = .warning 2000 :=
  C10_bmi_winter_dose.2.2 11 (by norm_num [winter_months])

end Sunexposure
